import Mathlib

/-!
Shallow embedding of `src/Arduino_code/ArduinoAbletonLfoAdsr/ArduinoAbletonLfoAdsr.ino`.

The sketch is a single real-time loop: a 4-byte serial protocol decoder
(`rx_state` machine), a control dispatcher mutating global configuration,
a sync-clock section, per-channel DAC output mixing, and a connection
watchdog LED.  C `float`/`double` arithmetic is embedded as exact `ℚ`
arithmetic (the one transcendental, `pow` in the sustain conversion, as `ℝ`);
C `unsigned long` subtraction wraps modulo `2^32`; C `(int)` casts of
floats truncate toward zero; out-of-bounds reads of the fixed 24-entry
`_freqArray` are embedded as `Option`-returning lookups, `none` marking
the undefined access.

The `lfo` and `adsr` collaborator libraries are not part of this
repository; their state is modelled from the spec's collaborator
contracts (spec section 6) only as far as the sketch reads or writes it.
-/

namespace AbletonLfoAdsr

/-- The sketch constant `DACSIZE` (4096): vertical resolution of the DACs. -/
def DACSIZE : ℤ := 4096

/-- The sketch constant `CONNECTED_TIMEOUT` (500000): watchdog window in microseconds. -/
def CONNECTED_TIMEOUT : ℕ := 500000

/-- The sketch function `getInt(l_highByte, l_lowByte)`:
`((unsigned int)l_highByte << 8) + l_lowByte`. -/
def getInt (h l : ℕ) : ℕ := h * 256 + l

/-- The fixed 24-entry tempo-rate table `_freqArray` (float literals embedded
as the exact rationals they are written as). -/
def freqArray : List ℚ :=
  [64, 48, 32, 24, 16, 12, 8, 6, 5.3333, 4, 3.2, 3, 2.667, 2, 1.333, 1,
   0.667, 0.5, 0.333, 0.25, 0.167, 0.125, 0.0625, 0.03125]

/-- The array read `_freqArray[i]` as a fallible lookup: `none` is the out-of-bounds
(undefined) C array read. -/
def freqGet (i : ℕ) : Option ℚ := freqArray[i]?

/-- C `(int)` / `(long)` cast of a float value: truncation toward zero
(`num.tdiv den` on the exact rational, since the denominator is positive). -/
def ctrunc (q : ℚ) : ℤ := q.num.tdiv q.den

/-- Arduino `map(x, in_min, in_max, out_min, out_max)`:
integer linear remap with C `long` division (truncation toward zero). -/
def map (x inMin inMax outMin outMax : ℤ) : ℤ :=
  ((x - inMin) * (outMax - outMin)).tdiv (inMax - inMin) + outMin

/-- Arduino `round(x)` macro: `(long)(x+0.5)` for `x ≥ 0`, `(long)(x-0.5)`
otherwise (round half away from zero). -/
def around (q : ℚ) : ℤ := if 0 ≤ q then ctrunc (q + 1/2) else ctrunc (q - 1/2)

/-- The boolean level produced by `digitalWrite(pin, round(phase * 2) % 2)`:
C `%` is truncated remainder and `digitalWrite` treats any nonzero value
as HIGH. -/
def levelOf (phase : ℚ) : Bool := (around (phase * 2)).tmod 2 ≠ 0

/-- C `unsigned long` subtraction `a - b` (wraps modulo `2^32`). -/
def usub32 (a b : ℕ) : ℕ := (a % 2 ^ 32 + (2 ^ 32 - b % 2 ^ 32)) % 2 ^ 32

/-- Modelled from the spec: the Oscillator collaborator (`lfo` library, not in
this repository), with exactly the state the sketch writes through
`setMode`, `setMode0Freq`, `setMode1Rate`, `setMode1Bpm`, `setWaveForm`,
`setAmpl`, `setAmplOffset`, `setMode1Phase` and `sync` (the phase epoch
`resyncEpoch` of the spec's section 6 contract), and reads through
`getMode`, `getMode1Rate`, `getWaveForm`. -/
structure LfoState where
  mode : ℕ
  mode0Freq : ℚ
  mode1Rate : ℚ
  mode1Bpm : ℚ
  waveform : ℕ
  ampl : ℤ
  amplOffset : ℤ
  mode1Phase : ℚ
  epoch : ℕ

/-- Modelled from the spec: the Envelope collaborator (`adsr` library, not in
this repository), with exactly the state the sketch writes through
`setAttack`, `setDecay`, `setSustain`, `setRelease`, `noteOn`, `noteOff`. -/
structure AdsrState where
  attack : ℕ
  decay : ℕ
  sustain : ℝ
  release : ℕ
  gate : Bool
  gateT : ℕ

/-- The sketch's global mutable state (the file-scope variables plus the two
`lfo` instances, the `adsr` instance and the measure LED level). -/
structure Machine where
  bpm : ℚ
  dac0_ampl : ℤ
  dac0_adsr_enable : Bool
  dac1_ampl : ℤ
  dac1_adsr_enable : Bool
  sync_mode0_freq : ℚ
  sync_mode1_rate : ℕ
  sync_mode : ℕ
  sync_phase : ℚ
  rx_state : ℕ
  cc_sync : ℕ
  cc_control : ℕ
  cc_val1 : ℕ
  cc_val2 : ℕ
  sync_t0 : ℕ
  dac0 : LfoState
  dac1 : LfoState
  adsr : AdsrState
  led_measure : Bool

/-- The measure-boundary gate `(int)(10*(value-1)/rate) % 10 == 0` used in
the `ID_SONG_MEASURE` branch of `loop()`. -/
def measureBoundary (rate : ℚ) (v : ℕ) : Prop :=
  (ctrunc (10 * ((v : ℚ) - 1) / rate)).tmod 10 = 0

instance (rate : ℚ) (v : ℕ) : Decidable (measureBoundary rate v) := by
  unfold measureBoundary
  infer_instance

/-- The control dispatcher: the `case 4` body of `loop()` (lines 213-298),
given the already-reassembled `(control, value)` pair and the loop
timestamp `t`.  Each branch follows the source's `else if` chain in source
order; `none` marks an out-of-bounds `_freqArray` read. -/
noncomputable def dispatch (st : Machine) (c v t : ℕ) : Option Machine :=
  if c = 250 then -- ID_SONG_BPM
    some { st with bpm := (v : ℚ) / 10,
                   dac0 := { st.dac0 with mode1Bpm := (v : ℚ) / 10 },
                   dac1 := { st.dac1 with mode1Bpm := (v : ℚ) / 10 } }
  else if c = 251 then -- ID_SONG_MEASURE
    if v ≠ 0 then
      match freqGet st.sync_mode1_rate with
      | none => none
      | some r =>
        some { st with
          dac0 := if st.dac0.mode ≠ 0 ∧ measureBoundary st.dac0.mode1Rate v
                  then { st.dac0 with epoch := t } else st.dac0,
          dac1 := if st.dac1.mode ≠ 0 ∧ measureBoundary st.dac1.mode1Rate v
                  then { st.dac1 with epoch := t } else st.dac1,
          sync_t0 := if measureBoundary r v then t else st.sync_t0,
          led_measure := !st.led_measure }
    else some st
  else if c = 230 then -- ID_DAC0_MODE
    some { st with dac0 := { st.dac0 with mode := v } }
  else if c = 231 then -- ID_DAC0_MODE0_FREQ
    some { st with dac0 := { st.dac0 with mode0Freq := (v : ℚ) / 100 } }
  else if c = 232 then -- ID_DAC0_MODE1_RATE
    match freqGet v with
    | none => none
    | some r => some { st with dac0 := { st.dac0 with mode1Rate := r } }
  else if c = 234 then -- ID_DAC0_AMPL
    some { st with dac0_ampl := (v : ℤ), dac0 := { st.dac0 with ampl := (v : ℤ) } }
  else if c = 235 then -- ID_DAC0_AMPL_OFFSET
    some { st with dac0 := { st.dac0 with amplOffset := (v : ℤ) } }
  else if c = 233 then -- ID_DAC0_WAVEFORM
    some { st with dac0 := { st.dac0 with waveform := v } }
  else if c = 236 then -- ID_DAC0_PHASE
    some { st with dac0 := { st.dac0 with mode1Phase := (360 - (v : ℚ)) / 360 } }
  else if c = 237 then -- ID_DAC0_ADSR_ENABLE
    some { st with dac0_adsr_enable := v ≠ 0 }
  else if c = 240 then -- ID_DAC1_MODE
    some { st with dac1 := { st.dac1 with mode := v } }
  else if c = 241 then -- ID_DAC1_MODE0_FREQ
    some { st with dac1 := { st.dac1 with mode0Freq := (v : ℚ) / 100 } }
  else if c = 242 then -- ID_DAC1_MODE1_RATE
    match freqGet v with
    | none => none
    | some r => some { st with dac1 := { st.dac1 with mode1Rate := r } }
  else if c = 244 then -- ID_DAC1_AMPL
    some { st with dac1_ampl := (v : ℤ), dac1 := { st.dac1 with ampl := (v : ℤ) } }
  else if c = 245 then -- ID_DAC1_AMPL_OFFSET
    some { st with dac1 := { st.dac1 with amplOffset := (v : ℤ) } }
  else if c = 243 then -- ID_DAC1_WAVEFORM
    some { st with dac1 := { st.dac1 with waveform := v } }
  else if c = 246 then -- ID_DAC1_PHASE
    some { st with dac1 := { st.dac1 with mode1Phase := (360 - (v : ℚ)) / 360 } }
  else if c = 247 then -- ID_DAC1_ADSR_ENABLE
    some { st with dac1_adsr_enable := v ≠ 0 }
  else if c = 210 then -- ID_ADSR_ATTACK
    some { st with adsr := { st.adsr with attack := 1000 * v } }
  else if c = 211 then -- ID_ADSR_DECAY
    some { st with adsr := { st.adsr with decay := 1000 * v } }
  else if c = 212 then -- ID_ADSR_SUSTAIN
    some { st with adsr := { st.adsr with
      sustain := (10 : ℝ) ^ (-(v : ℝ) / 1000) * ((DACSIZE : ℝ) - 1) } }
  else if c = 213 then -- ID_ADSR_RELEASE
    some { st with adsr := { st.adsr with release := 1000 * v } }
  else if c = 214 then -- ID_ADSR_TRIGGER
    if v = 1 then some { st with adsr := { st.adsr with gate := true, gateT := t } }
    else if v = 0 then some { st with adsr := { st.adsr with gate := false, gateT := t } }
    else some st
  else if c = 220 then -- ID_SYNC_MODE
    some { st with sync_mode := v }
  else if c = 221 then -- ID_SYNC_MODE0_FREQ
    some { st with sync_mode0_freq := (v : ℚ) / 100 }
  else if c = 222 then -- ID_SYNC_MODE1_RATE
    some { st with sync_mode1_rate := v }
  else if c = 226 then -- ID_SYNC_PHASE
    some { st with sync_phase := (360 - (v : ℚ)) / 360 }
  else
    some st

/-- One received byte through the `rx_state` machine of `loop()`
(lines 189-299): `rx_state` is incremented, then the `switch` runs;
case 4 reassembles the value and dispatches.  Returns the updated machine
and the frame completed at this byte, if any. -/
noncomputable def serialStep (m : Machine) (b t : ℕ) :
    Option (Machine × Option (ℕ × ℕ)) :=
  let rs := m.rx_state + 1
  if rs = 1 then
    if b ≠ 255 then some ({ m with cc_sync := b, rx_state := 0 }, none)
    else some ({ m with cc_sync := b, rx_state := rs }, none)
  else if rs = 2 then some ({ m with cc_control := b, rx_state := rs }, none)
  else if rs = 3 then some ({ m with cc_val1 := b, rx_state := rs }, none)
  else if rs = 4 then
    (dispatch { m with cc_val2 := b, rx_state := 0 }
        m.cc_control (getInt m.cc_val1 b) t).map
      (fun m2 => (m2, some (m.cc_control, getInt m.cc_val1 b)))
  else some ({ m with rx_state := rs }, none)

/-- Feed a list of bytes one per loop iteration (at a fixed timestamp,
which no byte-handling branch of interest reads), collecting the frames
completed along the way. -/
noncomputable def feedBytes (m : Machine) (bs : List ℕ) (t : ℕ) :
    Option (Machine × List (ℕ × ℕ)) :=
  match bs with
  | [] => some (m, [])
  | b :: rest =>
    match serialStep m b t with
    | none => none
    | some (m2, f) =>
      match feedBytes m2 rest t with
      | none => none
      | some (m3, fs) => some (m3, f.toList ++ fs)

/-- The sync-port section of `loop()` (lines 171-181): returns the level on
`SYNC_OUTPUT` after the iteration (the previous level is retained when the
section writes nothing) and the level written to `LED_SYNC`; `none` is the
out-of-bounds `_freqArray` read in the tempo-locked branch. -/
def syncStep (m : Machine) (t : ℕ) (prevOut : Bool) : Option (Bool × Bool) :=
  if m.sync_mode = 0 then
    let phase : ℚ := (t : ℚ) * m.sync_mode0_freq / 1000000
    some (levelOf phase, levelOf phase)
  else if m.sync_mode = 1 then
    match freqGet m.sync_mode1_rate with
    | none => none
    | some r =>
      let phase : ℚ :=
        (usub32 t m.sync_t0 : ℚ) * r * m.bpm / 60000000 + m.sync_phase
      some (levelOf phase, levelOf phase)
  else some (prevOut, levelOf 0)

/-- The timeout-LED section of `loop()` (lines 183-192) together with the
watchdog refresh at byte reception (lines 189-192): given the LED level,
`connected_t0`, the timestamp and whether a serial byte is available,
returns the LED level and `connected_t0` after the iteration. -/
def ledStep (led : Bool) (t0 t : ℕ) (byteAvail : Bool) : Bool × ℕ :=
  let led1 := if led ∧ usub32 t t0 > CONNECTED_TIMEOUT then false else led
  if byteAvail then (if led1 = false then true else led1, t) else (led1, t0)

/-- Modelled from the spec: `Oscillator.sample` at a fixed timestamp — the
constant/DC shape (waveform code 0) returns the configured amplitude
offset (the sketch's own comment at the DC branch, line 145); periodic
shapes are an unspecified function of the current amplitude, abstracted
as the parameter `periodic`. -/
def lfoGetWave (waveform : ℕ) (amplOffset : ℤ) (periodic : ℤ → ℤ) (ampl : ℤ) : ℤ :=
  if waveform = 0 then amplOffset else periodic ampl

/-- The per-channel DAC write of `loop()` (lines 140-152 resp. 156-168):
`env` is the envelope sample `adsr.getWave(t)`; `periodic` abstracts the
oscillator's periodic sample as a function of the amplitude it was just
given through `setAmpl`. -/
def channelOutput (adsrEnable : Bool) (waveform : ℕ) (amplOffset : ℤ)
    (configuredAmpl : ℤ) (env : ℤ) (periodic : ℤ → ℤ) : ℤ :=
  if adsrEnable = false then
    lfoGetWave waveform amplOffset periodic configuredAmpl
  else if waveform = 0 then
    map env 0 (DACSIZE - 1) (lfoGetWave waveform amplOffset periodic configuredAmpl)
      (DACSIZE - 1)
  else
    lfoGetWave waveform amplOffset periodic
      (map env 0 (DACSIZE - 1) 0 configuredAmpl)

/-- Concrete Oscillator state used to instantiate scenarios (the `lfo`
library's constructor defaults are not part of this repository; no claim
below depends on these values). -/
def lfoInit : LfoState :=
  { mode := 0, mode0Freq := 10, mode1Rate := 1, mode1Bpm := 120,
    waveform := 1, ampl := 4095, amplOffset := 0, mode1Phase := 0, epoch := 0 }

/-- Concrete Envelope state used to instantiate scenarios (the `adsr`
library's constructor defaults are not part of this repository; no claim
below depends on these values). -/
noncomputable def adsrInit : AdsrState :=
  { attack := 0, decay := 0, sustain := 4095, release := 0, gate := false, gateT := 0 }

/-- The sketch's global state right after `setup()`: the file-scope
initializers of lines 78-98 (`bpm = 120`, amplitudes 4095, envelope
modulation off, `sync_mode0_freq = 10`, `sync_mode1_rate = 15`,
`sync_mode = 0`, `sync_phase = 0`, `rx_state = 0`, all timestamps 0,
measure LED low). -/
noncomputable def machineInit : Machine :=
  { bpm := 120, dac0_ampl := 4095, dac0_adsr_enable := false,
    dac1_ampl := 4095, dac1_adsr_enable := false,
    sync_mode0_freq := 10, sync_mode1_rate := 15, sync_mode := 0,
    sync_phase := 0, rx_state := 0, cc_sync := 0, cc_control := 0,
    cc_val1 := 0, cc_val2 := 0, sync_t0 := 0,
    dac0 := lfoInit, dac1 := lfoInit, adsr := adsrInit, led_measure := false }


set_option maxRecDepth 4000 in
/-- C1: starting with the decoder in its initial AwaitSync state
(`rx_state = 0`), the byte sequence `[5, 251, 0, 1, 255, 250, 0x04, 0xB0]`
first discards the four stray leading bytes, leaving the decoder state at 0
with no frame decoded, and in full decodes exactly one frame
`(250, 0x04*256 + 0xB0 = 1200)` whose dispatch sets `bpm` to `120`. -/
theorem c1_resync_decodes_bpm_frame (m : Machine) (t : ℕ) (h : m.rx_state = 0) :
    (∃ m4, feedBytes m [5, 251, 0, 1] t = some (m4, []) ∧ m4.rx_state = 0) ∧
    (∃ m8, feedBytes m [5, 251, 0, 1, 255, 250, 4, 176] t = some (m8, [(250, 1200)]) ∧
      m8.bpm = 120 ∧ m8.rx_state = 0) := by
  obtain ⟨b, a0, e0, a1, e1, f, r, sm, sp, rxs, cs, cc, v1, v2, s0, d0, d1, ad, lm⟩ := m
  simp only [Machine.rx_state] at h
  subst h
  refine ⟨⟨_, rfl, rfl⟩, ⟨_, rfl, ?_, rfl⟩⟩
  norm_num [getInt]

/-- Witness for C1 at the sketch's initial state. -/
theorem c1_resync_decodes_bpm_frame_witness :
    (∃ m4, feedBytes machineInit [5, 251, 0, 1] 0 = some (m4, []) ∧ m4.rx_state = 0) ∧
    (∃ m8, feedBytes machineInit [5, 251, 0, 1, 255, 250, 4, 176] 0 =
        some (m8, [(250, 1200)]) ∧ m8.bpm = 120 ∧ m8.rx_state = 0) :=
  c1_resync_decodes_bpm_frame machineInit 0 rfl

/-- C6: with envelope modulation enabled and the constant/DC waveform
(code 0), the value written to the channel's DAC is the Arduino `map`
remap of the envelope sample from `[0, 4095]` into `[osc, 4095]`, where
`osc` is the oscillator's DC sample (its amplitude offset); with DC level
1000 and envelope sample 2048 that remap evaluates to 2547. -/
theorem c6_envelope_dc_mixing (offset ampl env : ℤ) (periodic : ℤ → ℤ) :
    channelOutput true 0 offset ampl env periodic
      = map env 0 (DACSIZE - 1) offset (DACSIZE - 1) ∧
    channelOutput true 0 1000 ampl 2048 periodic = map 2048 0 4095 1000 4095 ∧
    channelOutput true 0 1000 ampl 2048 periodic = 2547 := by
  refine ⟨rfl, rfl, ?_⟩
  norm_num [channelOutput, lfoGetWave, map, DACSIZE, Int.tdiv]

/-- C7: the phase commands (controls 236, 246, 226) set the configured
phase to `(360 - value)/360`; raw value 0 yields phase 1 and raw value
180 yields phase 1/2. -/
theorem c7_phase_inversion (m : Machine) (v t : ℕ) :
    (∃ m1, dispatch m 236 v t = some m1 ∧ m1.dac0.mode1Phase = (360 - (v : ℚ)) / 360) ∧
    (∃ m2, dispatch m 246 v t = some m2 ∧ m2.dac1.mode1Phase = (360 - (v : ℚ)) / 360) ∧
    (∃ m3, dispatch m 226 v t = some m3 ∧ m3.sync_phase = (360 - (v : ℚ)) / 360) ∧
    (∃ m4, dispatch m 236 0 t = some m4 ∧ m4.dac0.mode1Phase = 1) ∧
    (∃ m5, dispatch m 236 180 t = some m5 ∧ m5.dac0.mode1Phase = 1 / 2) := by
  refine ⟨⟨_, rfl, rfl⟩, ⟨_, rfl, rfl⟩, ⟨_, rfl, rfl⟩,
    ⟨_, rfl, ?_⟩, ⟨_, rfl, ?_⟩⟩ <;> norm_num

/-- C9: dispatching a frame whose control id is none of the assigned ids
(250, 251, 210-214, 220-222, 226, 230-237, 240-247) leaves the whole
machine state unchanged and produces no error. -/
theorem c9_unknown_control_ignored (m : Machine) (c v t : ℕ)
    (h : c ∉ ([250, 251, 210, 211, 212, 213, 214, 220, 221, 222, 226,
      230, 231, 232, 233, 234, 235, 236, 237,
      240, 241, 242, 243, 244, 245, 246, 247] : List ℕ)) :
    dispatch m c v t = some m := by
  simp only [List.mem_cons, List.not_mem_nil, or_false] at h
  push_neg at h
  obtain ⟨h1, h2, h3, h4, h5, h6, h7, h8, h9, h10, h11, h12, h13, h14,
    h15, h16, h17, h18, h19, h20, h21, h22, h23, h24, h25, h26, h27⟩ := h
  simp [dispatch, h1, h2, h3, h4, h5, h6, h7, h8, h9, h10, h11, h12, h13,
    h14, h15, h16, h17, h18, h19, h20, h21, h22, h23, h24, h25, h26, h27]

/-- Witness for C9 at control id 100. -/
theorem c9_unknown_control_ignored_witness :
    dispatch machineInit 100 7 3 = some machineInit :=
  c9_unknown_control_ignored machineInit 100 7 3 (by decide)

/-- C5: the envelope sustain command (control 212) with raw value `v` sets
the sustain level to `10^(-v/1000) * 4095`; `v = 0` yields `4095` and
`v = 1000` yields `409.5`. -/
theorem c5_sustain_conversion (m : Machine) (v t : ℕ) :
    (∃ m1, dispatch m 212 v t = some m1 ∧
      m1.adsr.sustain = (10 : ℝ) ^ (-(v : ℝ) / 1000) * 4095) ∧
    (∃ m2, dispatch m 212 0 t = some m2 ∧ m2.adsr.sustain = 4095) ∧
    (∃ m3, dispatch m 212 1000 t = some m3 ∧ m3.adsr.sustain = 409.5) := by
  refine ⟨⟨_, rfl, ?_⟩, ⟨_, rfl, ?_⟩, ⟨_, rfl, ?_⟩⟩
  · norm_num [DACSIZE]
  · norm_num [DACSIZE, Real.rpow_zero]
  · have h1 : -((1000 : ℕ) : ℝ) / 1000 = (-1 : ℝ) := by norm_num
    simp only [Machine.adsr, AdsrState.sustain, h1, Real.rpow_neg_one]
    norm_num [DACSIZE]

/-- C2 counterexample: at the sketch's initial state the sync generator is
free-running (`sync_mode = 0`, `sync_t0 = 0`), yet a measure command with
value 1 at timestamp 777 still rewrites `sync_t0` to 777. -/
theorem c2_counterexample :
    machineInit.sync_mode = 0 ∧ machineInit.sync_t0 = 0 ∧
    Option.map Machine.sync_t0 (dispatch machineInit 251 1 777) = some 777 := by
  refine ⟨rfl, rfl, ?_⟩
  with_unfolding_all rfl

/-- C2 (amended): dispatching a nonzero measure command re-synchronizes
`sync_t0` to the current timestamp exactly when the boundary condition
`floor(10*(value-1)/rateValue) mod 10 == 0` holds, regardless of
`sync_mode` — the free-running mode does not leave `sync_t0` unchanged. -/
theorem c2_measure_resync_ignores_sync_mode (m : Machine) (v t : ℕ) (r : ℚ)
    (hv : v ≠ 0) (hr : freqGet m.sync_mode1_rate = some r) :
    Option.map Machine.sync_t0 (dispatch m 251 v t)
      = some (if measureBoundary r v then t else m.sync_t0) ∧
    Option.map Machine.sync_mode (dispatch m 251 v t) = some m.sync_mode := by
  constructor <;> simp [dispatch, hv, hr]

/-- Witness for C2 (amended) at the initial state. -/
theorem c2_measure_resync_ignores_sync_mode_witness :
    Option.map Machine.sync_t0 (dispatch machineInit 251 1 777)
      = some (if measureBoundary 1 1 then 777 else machineInit.sync_t0) ∧
    Option.map Machine.sync_mode (dispatch machineInit 251 1 777)
      = some machineInit.sync_mode :=
  c2_measure_resync_ignores_sync_mode machineInit 1 777 1 (by decide)
    (by with_unfolding_all rfl)

/-- C3: for channel 0 in tempo-rate mode with tempo rate 4, measure values
1 and 5 re-synchronize the channel's phase epoch to the current timestamp,
while values 2, 3 and 4 leave it unchanged. -/
theorem c3_measure_boundary_gating (m : Machine) (t : ℕ) (r : ℚ)
    (hm : m.dac0.mode ≠ 0) (hrate : m.dac0.mode1Rate = 4)
    (hr : freqGet m.sync_mode1_rate = some r) :
    Option.map (fun x => x.dac0.epoch) (dispatch m 251 1 t) = some t ∧
    Option.map (fun x => x.dac0.epoch) (dispatch m 251 2 t) = some m.dac0.epoch ∧
    Option.map (fun x => x.dac0.epoch) (dispatch m 251 3 t) = some m.dac0.epoch ∧
    Option.map (fun x => x.dac0.epoch) (dispatch m 251 4 t) = some m.dac0.epoch ∧
    Option.map (fun x => x.dac0.epoch) (dispatch m 251 5 t) = some t := by
  have hb1 : measureBoundary (4 : ℚ) 1 := by with_unfolding_all decide
  have hb2 : ¬ measureBoundary (4 : ℚ) 2 := by with_unfolding_all decide
  have hb3 : ¬ measureBoundary (4 : ℚ) 3 := by with_unfolding_all decide
  have hb4 : ¬ measureBoundary (4 : ℚ) 4 := by with_unfolding_all decide
  have hb5 : measureBoundary (4 : ℚ) 5 := by with_unfolding_all decide
  refine ⟨?_, ?_, ?_, ?_, ?_⟩ <;>
    simp [dispatch, hr, hrate, hm, hb1, hb2, hb3, hb4, hb5]

/-- Channel 0 in tempo-rate mode with tempo rate 4, otherwise the initial
state: the concrete state instantiating C3. -/
noncomputable def c3Machine : Machine :=
  { machineInit with dac0 := { lfoInit with mode := 1, mode1Rate := 4 } }

/-- Witness for C3 at `c3Machine`. -/
theorem c3_measure_boundary_gating_witness :
    Option.map (fun x => x.dac0.epoch) (dispatch c3Machine 251 1 9) = some 9 ∧
    Option.map (fun x => x.dac0.epoch) (dispatch c3Machine 251 2 9)
      = some c3Machine.dac0.epoch ∧
    Option.map (fun x => x.dac0.epoch) (dispatch c3Machine 251 3 9)
      = some c3Machine.dac0.epoch ∧
    Option.map (fun x => x.dac0.epoch) (dispatch c3Machine 251 4 9)
      = some c3Machine.dac0.epoch ∧
    Option.map (fun x => x.dac0.epoch) (dispatch c3Machine 251 5 9) = some 9 :=
  c3_measure_boundary_gating c3Machine 9 1 (by decide) rfl
    (by with_unfolding_all rfl)

/-- C4 counterexample: with the liveness LED on, the last byte received at
timestamp 0 and the current timestamp exactly `CONNECTED_TIMEOUT`
(elapsed time equals 500000), the iteration leaves the LED on — the
source tests `>` CONNECTED_TIMEOUT, not `>=`. -/
theorem c4_counterexample : ledStep true 0 CONNECTED_TIMEOUT false = (true, 0) := by
  decide

/-- C4 (amended): with no byte available, the LED (when on) turns off
exactly when the elapsed time strictly exceeds 500000 (so it stays on at
exactly 500000), and the window is not reset; any received byte leaves
the LED on and resets the window to the current timestamp. -/
theorem c4_watchdog_strict_timeout (led : Bool) (t0 t : ℕ) :
    (ledStep true t0 t false).1
      = (if usub32 t t0 > CONNECTED_TIMEOUT then false else true) ∧
    (ledStep true t0 t false).2 = t0 ∧
    ledStep led t0 t true = (true, t) := by
  refine ⟨by simp [ledStep], rfl, ?_⟩
  cases led <;> simp [ledStep]


/-- C8 counterexample: a reachable divergence of `LED_SYNC` from
`SYNC_OUTPUT`.  From the initial state, the iteration at `t = 50000`
drives both high (free-running phase 1/2); after control 220 sets
`sync_mode = 2`, the next iteration leaves `SYNC_OUTPUT` high (neither
branch writes it) while `LED_SYNC` is written low (phase stays 0). -/
theorem c8_counterexample :
    syncStep machineInit 50000 false = some (true, true) ∧
    Option.map Machine.sync_mode (dispatch machineInit 220 2 0) = some 2 ∧
    syncStep { machineInit with sync_mode := 2 } 60000 true = some (true, false) := by
  refine ⟨by with_unfolding_all decide, by with_unfolding_all rfl,
    by with_unfolding_all decide⟩

/-- C8 (amended): whenever `sync_mode` is 0 or 1, the level written to
`LED_SYNC` equals the level on `SYNC_OUTPUT` after the iteration; for any
other `sync_mode` (settable via control 220) `SYNC_OUTPUT` keeps its
previous level while `LED_SYNC` is driven by phase 0, so the two can
diverge. -/
theorem c8_sync_led_matches_output (m : Machine) (t : ℕ)
    (prevOut out led : Bool) (hm : m.sync_mode = 0 ∨ m.sync_mode = 1)
    (hs : syncStep m t prevOut = some (out, led)) : led = out := by
  rcases hm with hm | hm
  · unfold syncStep at hs
    rw [hm] at hs
    simp at hs
    obtain ⟨h1, h2⟩ := hs
    subst h1
    subst h2
    rfl
  · unfold syncStep at hs
    rw [hm] at hs
    rcases hfr : freqGet m.sync_mode1_rate with _ | r <;> rw [hfr] at hs <;>
      simp at hs
    obtain ⟨h1, h2⟩ := hs
    subst h1
    subst h2
    rfl

/-- Witness for C8 (amended) at the initial state and `t = 50000`. -/
theorem c8_sync_led_matches_output_witness :
    syncStep machineInit 50000 false = some (true, true) ∧ (true : Bool) = true :=
  ⟨by with_unfolding_all decide,
    c8_sync_led_matches_output machineInit 50000 false true true (Or.inl rfl)
      (by with_unfolding_all decide)⟩


/-- In-bounds indices hit the table. -/
theorem freqGet_isSome_of_lt {i : ℕ} (h : i < 24) : (freqGet i).isSome := by
  have hl : i < freqArray.length := by
    simpa [freqArray] using h
  simp [freqGet, List.getElem?_eq_getElem hl]

/-- Out-of-range indices miss the table. -/
theorem freqGet_eq_none_of_ge {i : ℕ} (h : 24 ≤ i) : freqGet i = none := by
  have hl : freqArray.length ≤ i := by
    simpa [freqArray] using h
  simp [freqGet, List.getElem?_eq_none hl]

/-- C10: with every received tempo-rate index (controls 222, 232, 242)
below 24 and the stored sync index below 24, every `_freqArray` access in
the dispatcher and in the tempo-locked sync path is in bounds (the `none`
branch of the embedding is unreachable) and the stored index stays below
24; a single sync tempo-rate command with value ≥ 24 makes every
subsequent nonzero measure dispatch and tempo-locked sync iteration hit
the out-of-bounds branch. -/
theorem c10_freq_table_bounds :
    (∀ m c v t, m.sync_mode1_rate < 24 → ((c = 222 ∨ c = 232 ∨ c = 242) → v < 24) →
      ∃ k, Option.map Machine.sync_mode1_rate (dispatch m c v t) = some k ∧ k < 24) ∧
    (∀ m t prev, m.sync_mode1_rate < 24 → m.sync_mode = 1 →
      (syncStep m t prev).isSome) ∧
    (∀ m v t, 24 ≤ v →
      ∃ k, Option.map Machine.sync_mode1_rate (dispatch m 222 v t) = some k ∧
        24 ≤ k) ∧
    (∀ m v t, 24 ≤ m.sync_mode1_rate → v ≠ 0 → dispatch m 251 v t = none) ∧
    (∀ m t prev, 24 ≤ m.sync_mode1_rate → m.sync_mode = 1 →
      syncStep m t prev = none) := by
  refine ⟨?_, ?_, ?_, ?_, ?_⟩
  · intro m c v t h hv
    rcases eq_or_ne c 250 with rfl | h250
    · exact ⟨m.sync_mode1_rate, rfl, h⟩
    rcases eq_or_ne c 251 with rfl | h251
    · rcases eq_or_ne v 0 with rfl | hv0
      · exact ⟨m.sync_mode1_rate, by simp [dispatch], h⟩
      · obtain ⟨r, hr⟩ := Option.isSome_iff_exists.mp (freqGet_isSome_of_lt h)
        exact ⟨m.sync_mode1_rate, by simp [dispatch, hv0, hr], h⟩
    rcases eq_or_ne c 230 with rfl | h230
    · exact ⟨m.sync_mode1_rate, rfl, h⟩
    rcases eq_or_ne c 231 with rfl | h231
    · exact ⟨m.sync_mode1_rate, rfl, h⟩
    rcases eq_or_ne c 232 with rfl | h232
    · obtain ⟨r, hr⟩ :=
        Option.isSome_iff_exists.mp (freqGet_isSome_of_lt (hv (Or.inr (Or.inl rfl))))
      exact ⟨m.sync_mode1_rate, by simp [dispatch, hr], h⟩
    rcases eq_or_ne c 234 with rfl | h234
    · exact ⟨m.sync_mode1_rate, rfl, h⟩
    rcases eq_or_ne c 235 with rfl | h235
    · exact ⟨m.sync_mode1_rate, rfl, h⟩
    rcases eq_or_ne c 233 with rfl | h233
    · exact ⟨m.sync_mode1_rate, rfl, h⟩
    rcases eq_or_ne c 236 with rfl | h236
    · exact ⟨m.sync_mode1_rate, rfl, h⟩
    rcases eq_or_ne c 237 with rfl | h237
    · exact ⟨m.sync_mode1_rate, rfl, h⟩
    rcases eq_or_ne c 240 with rfl | h240
    · exact ⟨m.sync_mode1_rate, rfl, h⟩
    rcases eq_or_ne c 241 with rfl | h241
    · exact ⟨m.sync_mode1_rate, rfl, h⟩
    rcases eq_or_ne c 242 with rfl | h242
    · obtain ⟨r, hr⟩ :=
        Option.isSome_iff_exists.mp
          (freqGet_isSome_of_lt (hv (Or.inr (Or.inr rfl))))
      exact ⟨m.sync_mode1_rate, by simp [dispatch, hr], h⟩
    rcases eq_or_ne c 244 with rfl | h244
    · exact ⟨m.sync_mode1_rate, rfl, h⟩
    rcases eq_or_ne c 245 with rfl | h245
    · exact ⟨m.sync_mode1_rate, rfl, h⟩
    rcases eq_or_ne c 243 with rfl | h243
    · exact ⟨m.sync_mode1_rate, rfl, h⟩
    rcases eq_or_ne c 246 with rfl | h246
    · exact ⟨m.sync_mode1_rate, rfl, h⟩
    rcases eq_or_ne c 247 with rfl | h247
    · exact ⟨m.sync_mode1_rate, rfl, h⟩
    rcases eq_or_ne c 210 with rfl | h210
    · exact ⟨m.sync_mode1_rate, rfl, h⟩
    rcases eq_or_ne c 211 with rfl | h211
    · exact ⟨m.sync_mode1_rate, rfl, h⟩
    rcases eq_or_ne c 212 with rfl | h212
    · exact ⟨m.sync_mode1_rate, rfl, h⟩
    rcases eq_or_ne c 213 with rfl | h213
    · exact ⟨m.sync_mode1_rate, rfl, h⟩
    rcases eq_or_ne c 214 with rfl | h214
    · rcases eq_or_ne v 1 with rfl | hv1
      · exact ⟨m.sync_mode1_rate, rfl, h⟩
      rcases eq_or_ne v 0 with rfl | hv0
      · exact ⟨m.sync_mode1_rate, rfl, h⟩
      · exact ⟨m.sync_mode1_rate, by simp [dispatch, hv1, hv0], h⟩
    rcases eq_or_ne c 220 with rfl | h220
    · exact ⟨m.sync_mode1_rate, rfl, h⟩
    rcases eq_or_ne c 221 with rfl | h221
    · exact ⟨m.sync_mode1_rate, rfl, h⟩
    rcases eq_or_ne c 222 with rfl | h222
    · exact ⟨v, rfl, hv (Or.inl rfl)⟩
    rcases eq_or_ne c 226 with rfl | h226
    · exact ⟨m.sync_mode1_rate, rfl, h⟩
    exact ⟨m.sync_mode1_rate,
      by simp [dispatch, h250, h251, h230, h231, h232, h234, h235, h233, h236,
        h237, h240, h241, h242, h244, h245, h243, h246, h247, h210, h211,
        h212, h213, h214, h220, h221, h222, h226], h⟩
  · intro m t prev h hm
    obtain ⟨r, hr⟩ := Option.isSome_iff_exists.mp (freqGet_isSome_of_lt h)
    simp [syncStep, hm, hr]
  · intro m v t hv
    exact ⟨v, rfl, hv⟩
  · intro m v t h hv0
    simp [dispatch, hv0, freqGet_eq_none_of_ge h]
  · intro m t prev h hm
    simp [syncStep, hm, freqGet_eq_none_of_ge h]

/-- The tempo-locked variant of the initial state. -/
noncomputable def lockedMachine : Machine := { machineInit with sync_mode := 1 }

/-- The initial state with an out-of-range sync tempo-rate index. -/
noncomputable def badRateMachine : Machine := { machineInit with sync_mode1_rate := 24 }

/-- Tempo-locked with an out-of-range sync tempo-rate index. -/
noncomputable def badRateLockedMachine : Machine :=
  { machineInit with sync_mode := 1, sync_mode1_rate := 24 }

/-- Witness for C10 at concrete states and inputs. -/
theorem c10_freq_table_bounds_witness :
    (∃ k, Option.map Machine.sync_mode1_rate (dispatch machineInit 242 23 5)
      = some k ∧ k < 24) ∧
    (syncStep lockedMachine 9 false).isSome ∧
    (∃ k, Option.map Machine.sync_mode1_rate (dispatch machineInit 222 24 5)
      = some k ∧ 24 ≤ k) ∧
    dispatch badRateMachine 251 1 5 = none ∧
    syncStep badRateLockedMachine 9 false = none :=
  ⟨c10_freq_table_bounds.1 machineInit 242 23 5 (by decide) (fun _ => by decide),
   c10_freq_table_bounds.2.1 lockedMachine 9 false (by decide) rfl,
   c10_freq_table_bounds.2.2.1 machineInit 24 5 (by decide),
   c10_freq_table_bounds.2.2.2.1 badRateMachine 1 5 (by decide) (by decide),
   c10_freq_table_bounds.2.2.2.2 badRateLockedMachine 9 false (by decide) rfl⟩


end AbletonLfoAdsr
